import Mathlib

/-!
Shallow embedding of `homeassistant/components/light/houm.py` (the Houm.io
light platform) and proofs about the claims of its specification.

Modelling conventions:
* Python values flowing through JSON payloads and device fields are modelled
  by the dynamic type `PyVal` (bool, int, str, None); truthiness and the
  `> 0` comparison follow Python semantics (comparing a non-numeric value
  raises `TypeError`, modelled as an error result).
* Python dicts are association lists; assignment `d[k] = v` keeps insertion
  order for existing keys and appends new keys, like CPython dicts.
* Exceptions are modelled with `Except`; where a claim depends on the state
  at the moment an exception is raised, the error value carries that state.
* `time.time()` is modelled by passing the current time explicitly as a
  rational number; the HTTP response of a pass is passed in as a
  `FetchOutcome` value (the environment of the call).
* Logging and the socket emit are modelled as the data they would carry
  (the list of emitted events, the count of `update_ha_state` calls);
  log text itself is not modelled.
-/

namespace Houm

/-- A dynamically typed Python value as it appears in the JSON payloads and
device fields of the source. -/
inductive PyVal where
  | pybool : Bool → PyVal
  | pyint : Int → PyVal
  | pystr : String → PyVal
  | pynone : PyVal
deriving DecidableEq, Repr

/-- Python truthiness (`bool(v)`) for the values we model. -/
def pyTruthy : PyVal → Bool
  | .pybool b => b
  | .pyint n => decide (n ≠ 0)
  | .pystr s => decide (s ≠ "")
  | .pynone => false

/-- Python `v > 0`: defined on bools (treated as 0/1) and ints, a
`TypeError` (modelled as `none`) on str and None. -/
def pyGtZero : PyVal → Option Bool
  | .pybool b => some b
  | .pyint n => some (decide (0 < n))
  | .pystr _ => none
  | .pynone => none

/-- Python exceptions raised by the code paths we model. -/
inductive PyError where
  | keyError : String → PyError
  | attributeError : String → PyError
  | typeError : String → PyError
  | requestException : PyError
deriving DecidableEq, Repr

/-- `d.get(k)` / `d[k]` lookup on an association-list dict (first match). -/
def assocGet {κ α : Type} [DecidableEq κ] : List (κ × α) → κ → Option α
  | [], _ => none
  | (k, v) :: rest, key => if k = key then some v else assocGet rest key

/-- `k in d` membership test. -/
def assocHas {κ α : Type} [DecidableEq κ] (l : List (κ × α)) (k : κ) : Bool :=
  (assocGet l k).isSome

/-- `d[k] = v` assignment: overwrite in place when the key exists, append
otherwise (CPython dict ordering). -/
def assocSet {κ α : Type} [DecidableEq κ] : List (κ × α) → κ → α → List (κ × α)
  | [], key, v => [(key, v)]
  | (k, w) :: rest, key, v =>
      if k = key then (key, v) :: rest else (k, w) :: assocSet rest key v

/-- A JSON object / Python dict with string keys, as used for light objects
and push payloads. -/
abbrev Dict := List (String × PyVal)

/-- `d.get(k, default)`. -/
def dictGetD (d : Dict) (k : String) (dflt : PyVal) : PyVal :=
  (assocGet d k).getD dflt

/-- Which Python class a device object was built with (`HoumSwitch` for
binary lights, `HoumDimmer` for dimmable ones). -/
inductive DeviceClass where
  | houmSwitch
  | houmDimmer
deriving DecidableEq, Repr

/-- The fields a `HoumDevice` instance holds after `__init__` (the back
reference to the controller is left implicit: commands are returned as
data instead of being sent through it). -/
structure HoumDevice where
  cls : DeviceClass
  «on» : PyVal
  bri : PyVal
  deviceId : PyVal
  type : PyVal
  name : PyVal
  protocol : PyVal
deriving DecidableEq, Repr

/-- `HoumDevice.__init__`: every field is `json_state.get(...)`, hence
`None` when the key is missing. -/
def HoumDevice.ofJson (cls : DeviceClass) (json_state : Dict) : HoumDevice :=
  { cls := cls
    «on» := dictGetD json_state "on" .pynone
    bri := dictGetD json_state "bri" .pynone
    deviceId := dictGetD json_state "_id" .pynone
    type := dictGetD json_state "type" .pynone
    name := dictGetD json_state "name" .pynone
    protocol := dictGetD json_state "protocol" .pynone }

/-- The controller registry `self.device_id_map`: a dict from device id
(the `_id` value, a `PyVal`) to the device object. -/
abbrev Registry := List (PyVal × HoumDevice)

/-- One emitted socket event: event name and `apply/light` payload. -/
structure ApplyLightPayload where
  _id : PyVal
  «on» : PyVal
  bri : PyVal
deriving DecidableEq, Repr

/-- `HoumController.set_value(name, device_id, value)`:
`on = value if name == 'on' else value > 0`;
`bri = value if name == 'bri' else 255 if value else 0`;
then exactly one `self.socket.emit('apply/light', ...)`.  The returned
list is the list of emitted events. -/
def HoumController.set_value (name : String) (device_id : PyVal) (value : PyVal) :
    Except PyError (List (String × ApplyLightPayload)) :=
  let on? : Except PyError PyVal :=
    if name = "on" then .ok value
    else
      match pyGtZero value with
      | some b => .ok (.pybool b)
      | none => .error (.typeError "unorderable types")
  match on? with
  | .error e => .error e
  | .ok onv =>
    let bri : PyVal :=
      if name = "bri" then value
      else if pyTruthy value then .pyint 255 else .pyint 0
    .ok [("apply/light", { _id := device_id, «on» := onv, bri := bri })]

/-- The observable outcome of one `HoumDevice.set_value` call: the mutated
device, the socket events emitted through the controller, and how many
times `update_ha_state` was called during the call (the source never calls
it on this path, so the count is always 0 on success). -/
structure SetValueResult where
  device : HoumDevice
  emitted : List (String × ApplyLightPayload)
  ha_state_updates : Nat
deriving DecidableEq, Repr

/-- `HoumDevice.set_value(name, value)`: for `'bri'` set `self.bri` then
`self.on = value > 0` (the comparison may raise `TypeError`); for `'on'`
set only `self.on`; then forward to
`self.houmController.set_value(name, self.deviceId, value)`.  No
`update_ha_state` call appears in the source on this path. -/
def HoumDevice.set_value (d : HoumDevice) (name : String) (value : PyVal) :
    Except PyError SetValueResult :=
  let d2? : Except PyError HoumDevice :=
    if name = "bri" then
      match pyGtZero value with
      | none => .error (.typeError "unorderable types")
      | some b => .ok { d with bri := value, «on» := PyVal.pybool b }
    else if name = "on" then .ok { d with «on» := value }
    else .ok d
  match d2? with
  | .error e => .error e
  | .ok d2 =>
    match HoumController.set_value name d.deviceId value with
    | .error e => .error e
    | .ok emitted => .ok { device := d2, emitted := emitted, ha_state_updates := 0 }

/-- The body of `HoumController.update_light` before its `except` clause,
following Python evaluation order (the right-hand side of an attribute
assignment is evaluated before the assignment, so a missing `'bri'` key
raises `KeyError` even when the device lookup produced `None`).  The error
value carries the registry as it stands when the exception is raised; the
`Nat` counts `update_ha_state` calls. -/
def HoumController.update_light_body (reg : Registry) (updated_data : Dict) :
    Except (PyError × Registry) (Registry × Nat) :=
  match assocGet updated_data "_id" with
  | none => .error (.keyError "_id", reg)
  | some idv =>
    let updated_device := assocGet reg idv
    match assocGet updated_data "bri" with
    | none => .error (.keyError "bri", reg)
    | some briv =>
      match updated_device with
      | none => .error (.attributeError "NoneType object has no attribute bri", reg)
      | some dev =>
        let reg1 := assocSet reg idv { dev with bri := briv }
        match assocGet updated_data "on" with
        | none => .error (.keyError "on", reg1)
        | some onv =>
          let reg2 := assocSet reg1 idv { dev with bri := briv, «on» := onv }
          .ok (reg2, 1)

/-- `HoumController.update_light(updated_data)`: the body wrapped in
`try ... except AttributeError`, which logs and drops the event; any other
exception (in particular `KeyError`) propagates out of the handler. -/
def HoumController.update_light (reg : Registry) (updated_data : Dict) :
    Except (PyError × Registry) (Registry × Nat) :=
  match HoumController.update_light_body reg updated_data with
  | .error (.attributeError _, reg2) => .ok (reg2, 0)
  | r => r

/-- The parsed snapshot JSON document, reduced to the only member the code
reads: `site_info.get('lights')`, which is `None` when the key is missing.
Entries of the list are light JSON objects. -/
structure SiteInfo where
  lights : Option (List Dict)
deriving DecidableEq, Repr

/-- The outcome of `requests.get(site_info_url).json()`: either a
`RequestException` at the network level or a parsed document. -/
inductive FetchOutcome where
  | netError : FetchOutcome
  | ok : SiteInfo → FetchOutcome
deriving DecidableEq, Repr

/-- The loop of `get_lights` over the `lights` list: dimmable entries build
a `HoumDimmer`, binary entries a `HoumSwitch`, other entries are skipped. -/
def buildDevices : List Dict → List HoumDevice
  | [] => []
  | light :: rest =>
    if assocHas light "type" = true ∧ dictGetD light "type" .pynone = .pystr "dimmable" then
      HoumDevice.ofJson .houmDimmer light :: buildDevices rest
    else if assocHas light "type" = true ∧ dictGetD light "type" .pynone = .pystr "binary" then
      HoumDevice.ofJson .houmSwitch light :: buildDevices rest
    else
      buildDevices rest

/-- `light.type in type_filter` / `light.protocol in protocol_filter`:
membership of a dynamic value in a list of strings. -/
def pyInStrList : PyVal → List String → Bool
  | .pystr s, l => l.contains s
  | _, _ => false

/-- `HoumController.get_lights(type_filter, protocol_filter)` at time `t`
with HTTP outcome `resp`.  The first component is the new
`self.last_command_sent` (assigned as the very first statement, before the
HTTP call, so it is `t` on every path, failure included); the second is the
result: the filtered device list, or `RequestException` from the network,
or `TypeError` when the document has no `lights` list (`for light in None`). -/
def HoumController.get_lights (t : ℚ) (resp : FetchOutcome)
    (type_filter protocol_filter : List String) :
    ℚ × Except PyError (List HoumDevice) :=
  (t,
    match resp with
    | .netError => .error .requestException
    | .ok site_info =>
      match site_info.lights with
      | none => .error (.typeError "NoneType is not iterable")
      | some lights =>
        let devices := buildDevices lights
        if type_filter.isEmpty = true ∧ protocol_filter.isEmpty = true then
          .ok devices
        else
          .ok (devices.filter fun light =>
            (type_filter.isEmpty || pyInStrList light.type type_filter)
            && (protocol_filter.isEmpty || pyInStrList light.protocol protocol_filter)))

/-- `light.deviceId in self.config_device_data and
self.config_device_data[light.deviceId].get('exclude', False)`. -/
def isExcluded (config_device_data : List (PyVal × Dict)) (device_id : PyVal) : Bool :=
  match assocGet config_device_data device_id with
  | none => false
  | some cfg => pyTruthy (dictGetD cfg "exclude" (.pybool false))

/-- The reconciliation loop of `discover_lights_and_sync_statuses` over
`found_lights`, threading the registry and the `new_lights` batch.  The
else-branch indexes `self.device_id_map[light.deviceId]`, which raises
`KeyError` when the id is absent (the excluded-and-absent case); the error
carries the registry as already mutated by earlier iterations. -/
def reconcile (config_device_data : List (PyVal × Dict)) :
    List HoumDevice → Registry → List HoumDevice →
    Except (PyError × Registry) (Registry × List HoumDevice)
  | [], reg, new_lights => .ok (reg, new_lights)
  | light :: rest, reg, new_lights =>
    let excluded := isExcluded config_device_data light.deviceId
    if assocHas reg light.deviceId = false ∧ excluded = false then
      reconcile config_device_data rest
        (assocSet reg light.deviceId light) (new_lights ++ [light])
    else
      match assocGet reg light.deviceId with
      | none => .error (.keyError "device_id_map", reg)
      | some light_to_update =>
        reconcile config_device_data rest
          (assocSet reg light.deviceId
            { light_to_update with «on» := light.«on», bri := light.bri })
          new_lights

/-- The mutable controller attributes touched by a refresh pass. -/
structure ControllerState where
  last_command_sent : ℚ
  device_id_map : Registry
  config_device_data : List (PyVal × Dict)
  protocols : List String
deriving DecidableEq, Repr

/-- How a refresh pass ended when no exception escaped it. -/
inductive DiscoverOutcome where
  | rateLimited : DiscoverOutcome
  | netErrorHandled : DiscoverOutcome
  | completed : List HoumDevice → DiscoverOutcome
deriving DecidableEq, Repr

/-- Result of a refresh pass that returned normally: the new controller
state, the outcome, and the list of `add_devices_callback` invocations
(each with its batch). -/
structure PassResult where
  state : ControllerState
  outcome : DiscoverOutcome
  announcements : List (List HoumDevice)
deriving DecidableEq, Repr

/-- `HoumController.discover_lights_and_sync_statuses` at time `t` with
HTTP outcome `resp`:
rate-limit guard `(self.last_command_sent + 1) > time.time()`; then
`get_lights(['binary', 'dimmable'], self.protocols)` with only
`RequestException` caught (logged, `return False`); then the reconcile
loop; finally `add_devices_callback(new_lights)` when the batch is
non-empty.  Uncaught exceptions are returned as `.error`, carrying the
state at the moment of the raise. -/
def HoumController.discover_lights_and_sync_statuses (t : ℚ) (resp : FetchOutcome)
    (st : ControllerState) : Except (PyError × ControllerState) PassResult :=
  if st.last_command_sent + 1 > t then
    .ok { state := st, outcome := .rateLimited, announcements := [] }
  else
    let fetched := HoumController.get_lights t resp ["binary", "dimmable"] st.protocols
    let st2 := { st with last_command_sent := fetched.1 }
    match fetched.2 with
    | .error .requestException =>
        .ok { state := st2, outcome := .netErrorHandled, announcements := [] }
    | .error e => .error (e, st2)
    | .ok found_lights =>
      match reconcile st2.config_device_data found_lights st2.device_id_map [] with
      | .error (e, reg2) => .error (e, { st2 with device_id_map := reg2 })
      | .ok (reg2, new_lights) =>
        .ok { state := { st2 with device_id_map := reg2 }
              outcome := .completed new_lights
              announcements := if new_lights.isEmpty then [] else [new_lights] }

/-- The controller state after a refresh pass, whether or not an exception
escaped it. -/
def stateAfter (r : Except (PyError × ControllerState) PassResult) : ControllerState :=
  match r with
  | .ok pr => pr.state
  | .error (_, st2) => st2

/-- Whether a refresh pass got past the rate-limit guard and attempted the
snapshot fetch. -/
def fetchAttempted (r : Except (PyError × ControllerState) PassResult) : Bool :=
  match r with
  | .ok pr =>
    match pr.outcome with
    | .rateLimited => false
    | _ => true
  | .error _ => true

/-- The cumulative effect of one reconciliation pass on a record already
present under key `k`: each snapshot entry carrying that id overwrites the
`on`/`bri` fields in order; no other field is ever written. -/
def applySnapshot (d : HoumDevice) (k : PyVal) (lights : List HoumDevice) : HoumDevice :=
  lights.foldl
    (fun cur l => if l.deviceId = k then { cur with «on» := l.«on», bri := l.bri } else cur) d

/-- A concrete device sitting in the registry under id `"a"` when the push
handler receives a payload with a missing field. -/
def c3_device : HoumDevice :=
  { cls := .houmSwitch, «on» := .pybool false, bri := .pyint 0,
    deviceId := .pystr "a", type := .pystr "binary", name := .pystr "hall",
    protocol := .pystr "upm" }

/-- Registry holding only `c3_device`. -/
def c3_registry : Registry := [(.pystr "a", c3_device)]

/-- A push payload whose id is known but whose `'on'` field is missing. -/
def c3_payload : Dict := [("_id", .pystr "a"), ("bri", .pyint 200)]

/-- Controller state with an empty registry and id `"x"` configured with
`exclude: true`. -/
def c2_state : ControllerState :=
  { last_command_sent := 0
    device_id_map := []
    config_device_data := [(.pystr "x", [("exclude", .pybool true)])]
    protocols := [] }

/-- Snapshot entry for the excluded id `"x"`. -/
def c2_light_json : Dict :=
  [("_id", .pystr "x"), ("type", .pystr "binary"), ("name", .pystr "hall"),
   ("protocol", .pystr "upm"), ("on", .pybool false), ("bri", .pyint 0)]

/-- Controller state used to run a refresh against a snapshot document
that has no `lights` key. -/
def c10_state : ControllerState :=
  { last_command_sent := 0, device_id_map := [], config_device_data := [], protocols := [] }

/-- Controller state used to exercise the rate limit with two refresh
calls at the same instant. -/
def c4_state : ControllerState :=
  { last_command_sent := -5, device_id_map := [], config_device_data := [], protocols := [] }

/-- Controller state with one known device, used to observe a refresh pass
that hits a network error. -/
def c5_state : ControllerState :=
  { last_command_sent := 2
    device_id_map := [(.pystr "a",
      { cls := .houmSwitch, «on» := .pybool true, bri := .pyint 255,
        deviceId := .pystr "a", type := .pystr "binary", name := .pystr "l",
        protocol := .pystr "p" })]
    config_device_data := []
    protocols := [] }

/-- A concrete dimmable device used to exhibit the behaviour of
`HoumDevice.set_value` on the `'on'` path. -/
def c1_device : HoumDevice :=
  { cls := .houmDimmer, «on» := .pybool false, bri := .pyint 7,
    deviceId := .pystr "a", type := .pystr "dimmable", name := .pystr "lamp",
    protocol := .pystr "upm" }

/-- A concrete switch device used to count the state-changed notifications
issued by `HoumDevice.set_value`. -/
def c7_device : HoumDevice :=
  { cls := .houmSwitch, «on» := .pybool false, bri := .pyint 0,
    deviceId := .pystr "b", type := .pystr "binary", name := .pystr "plug",
    protocol := .pystr "upm" }

/-- Controller state before the first of two identical refresh passes. -/
def c8_state : ControllerState :=
  { last_command_sent := 0, device_id_map := [], config_device_data := [], protocols := [] }

/-- Snapshot entry used for both refresh passes of the idempotence run. -/
def c8_light : Dict :=
  [("_id", .pystr "a"), ("type", .pystr "binary"), ("name", .pystr "l"),
   ("protocol", .pystr "p"), ("on", .pybool true), ("bri", .pyint 255)]

/-- The device record built from `c8_light` by `get_lights`. -/
def c8_found : HoumDevice := HoumDevice.ofJson .houmSwitch c8_light

/-- Record sitting in the registry before the reconcile pass of the frame
scenario. -/
def c9_old : HoumDevice :=
  { cls := .houmSwitch, «on» := .pybool false, bri := .pyint 0,
    deviceId := .pystr "a", type := .pystr "binary", name := .pystr "old-name",
    protocol := .pystr "p" }

/-- Snapshot entry for the same id with different live state and different
identity fields. -/
def c9_new : HoumDevice :=
  { cls := .houmDimmer, «on» := .pybool true, bri := .pyint 100,
    deviceId := .pystr "a", type := .pystr "dimmable", name := .pystr "new-name",
    protocol := .pystr "q" }

/-- Claim C1, counterexample: on the concrete device `c1_device` (local
brightness 7), calling `set_value` with field `'on'` and value `True`
leaves the local `bri` field at 7; it is not set to 255 as the claim
states — the `'on'` branch of `HoumDevice.set_value` writes only `self.on`. -/
theorem C1_counterexample :
    Except.map (fun r => r.device.bri)
        (HoumDevice.set_value c1_device "on" (.pybool true)) = .ok (.pyint 7)
    ∧ PyVal.pyint 7 ≠ PyVal.pyint 255 :=
  ⟨rfl, by decide⟩

/-- Claim C1 (amended): `set_value` with field `'bri'` and integer value
`v` sets the local `bri` to `v` and the local `on` to `v > 0`; `set_value`
with field `'on'` and boolean value `b` sets the local `on` to `b` and
leaves the local `bri` unchanged (only the outbound payload carries the
normalized brightness 255/0). -/
theorem C1_set_value_local_fields (d : HoumDevice) (v : Int) (b : Bool) :
    HoumDevice.set_value d "bri" (.pyint v)
      = .ok { device := { d with bri := .pyint v, «on» := .pybool (decide (0 < v)) }
              emitted := [("apply/light",
                { _id := d.deviceId, «on» := .pybool (decide (0 < v)), bri := .pyint v })]
              ha_state_updates := 0 }
    ∧ HoumDevice.set_value d "on" (.pybool b)
      = .ok { device := { d with «on» := .pybool b }
              emitted := [("apply/light",
                { _id := d.deviceId, «on» := .pybool b,
                  bri := if b then .pyint 255 else .pyint 0 })]
              ha_state_updates := 0 } :=
  ⟨rfl, rfl⟩

/-- Claim C6: `HoumController.set_value` emits exactly one `apply/light`
event; with field `'on'` and boolean value `b` the payload is
`(_id, on = b, bri = 255 if b else 0)`; with field `'bri'` and integer
value `v` the payload is `(_id, on = (v > 0), bri = v)`. -/
theorem C6_controller_set_value_canonical (device_id : PyVal) (b : Bool) (v : Int) :
    HoumController.set_value "on" device_id (.pybool b)
      = .ok [("apply/light",
          { _id := device_id, «on» := .pybool b,
            bri := if b then .pyint 255 else .pyint 0 })]
    ∧ HoumController.set_value "bri" device_id (.pyint v)
      = .ok [("apply/light",
          { _id := device_id, «on» := .pybool (decide (0 < v)), bri := .pyint v })] :=
  ⟨rfl, rfl⟩

/-- Claim C7, counterexample: on the concrete device `c7_device`, a
`set_value('on', True)` call issues zero `update_ha_state` notifications,
not the one notification per local command the claim states —
`HoumDevice.set_value` in the source never calls `update_ha_state`. -/
theorem C7_counterexample :
    Except.map (fun r => r.ha_state_updates)
        (HoumDevice.set_value c7_device "on" (.pybool true)) = .ok 0
    ∧ (0 : Nat) ≠ 1 :=
  ⟨rfl, by decide⟩

/-- Claim C7 (amended): every `HoumDevice.set_value` call with field
`'on'` (boolean value) or `'bri'` (integer value) forwards exactly one
`apply/light` emission to the controller and issues zero state-changed
notifications; the external registry collaborator is notified only on the
push-update path. -/
theorem C7_set_value_forwards_without_notifying (d : HoumDevice) (b : Bool) (v : Int) :
    Except.map (fun r => (r.emitted.length, r.ha_state_updates))
        (HoumDevice.set_value d "on" (.pybool b)) = .ok (1, 0)
    ∧ Except.map (fun r => (r.emitted.length, r.ha_state_updates))
        (HoumDevice.set_value d "bri" (.pyint v)) = .ok (1, 0) :=
  ⟨rfl, rfl⟩

/-- Claim C3, counterexample: on the registry `c3_registry` and the
payload `c3_payload` (known id `"a"`, `'on'` field missing), the push
handler does not return normally: a `KeyError` for `'on'` escapes it
(only `AttributeError` is caught), and the record's `bri` field has
already been overwritten by the time the exception is raised. -/
theorem C3_counterexample :
    HoumController.update_light c3_registry c3_payload
      = .error (.keyError "on", [(.pystr "a", { c3_device with bri := .pyint 200 })]) :=
  rfl

/-- Claim C3 (amended): for every inbound push payload carrying all three
expected fields, if the payload's id is not a key of the registry the
handler catches the `AttributeError` raised by the `None` lookup, logs an
error, leaves every Device Record unchanged and returns normally with zero
notifications; a payload missing an expected field instead raises a
`KeyError` out of the handler. -/
theorem C3_unknown_id_push_handled (reg : Registry) (p : Dict) (idv bv ov : PyVal)
    (h1 : assocGet p "_id" = some idv) (h2 : assocGet p "bri" = some bv)
    (_h3 : assocGet p "on" = some ov) (h4 : assocGet reg idv = none) :
    HoumController.update_light reg p = .ok (reg, 0) := by
  simp only [HoumController.update_light, HoumController.update_light_body, h1, h2, h4]

/-- Witness for `C3_unknown_id_push_handled` at the empty registry and a
complete payload with unknown id `"z"`. -/
theorem C3_unknown_id_push_handled_witness :
    HoumController.update_light []
        [("_id", .pystr "z"), ("bri", .pyint 1), ("on", .pybool true)] = .ok ([], 0) :=
  C3_unknown_id_push_handled []
    [("_id", .pystr "z"), ("bri", .pyint 1), ("on", .pybool true)]
    (.pystr "z") (.pyint 1) (.pybool true) rfl rfl rfl rfl

/-- Claim C2: the code contradicts the claimed behaviour.  Running a
refresh pass at time 10 on `c2_state` (empty registry, id `"x"` excluded)
against a snapshot containing a light with id `"x"` raises `KeyError`
instead of dropping the entry: the reconcile loop takes its else-branch
for an excluded id that is not in `device_id_map` and indexes the map.
No record is inserted (the carried registry is empty), but the pass does
not complete normally. -/
theorem C2_excluded_absent_raises_keyerror :
    HoumController.discover_lights_and_sync_statuses 10
        (.ok ⟨some [c2_light_json]⟩) c2_state
      = .error (.keyError "device_id_map", { c2_state with last_command_sent := 10 })
    ∧ assocHas c2_state.device_id_map (.pystr "x") = false := by
  have hg : ¬ (c2_state.last_command_sent + 1 > (10 : ℚ)) := by norm_num [c2_state]
  refine ⟨?_, rfl⟩
  unfold HoumController.discover_lights_and_sync_statuses
  rw [if_neg hg]
  rfl

/-- Claim C10: a well-formed JSON mapping without a `lights` key makes
`get_lights` bind `None` and raise `TypeError` when iterating it, and
`discover_lights_and_sync_statuses` propagates that exception uncaught
(its `except` clause covers only `RequestException`). -/
theorem C10_missing_lights_uncaught :
    (HoumController.get_lights 10 (.ok ⟨none⟩) ["binary", "dimmable"] []).2
      = .error (.typeError "NoneType is not iterable")
    ∧ HoumController.discover_lights_and_sync_statuses 10 (.ok ⟨none⟩) c10_state
      = .error (.typeError "NoneType is not iterable",
          { c10_state with last_command_sent := 10 })
    ∧ PyError.typeError "NoneType is not iterable" ≠ PyError.requestException := by
  have hg : ¬ (c10_state.last_command_sent + 1 > (10 : ℚ)) := by norm_num [c10_state]
  refine ⟨rfl, ?_, by decide⟩
  unfold HoumController.discover_lights_and_sync_statuses
  rw [if_neg hg]
  rfl

/-- Claim C5: when the snapshot fetch raises a network-level error, the
refresh pass catches it, logs it, and returns with the registry exactly as
it was before the pass began; only the rate-limit timestamp changes. -/
theorem C5_network_failure_leaves_registry (st : ControllerState) (t : ℚ)
    (h : ¬ (st.last_command_sent + 1 > t)) :
    HoumController.discover_lights_and_sync_statuses t .netError st
      = .ok { state := { st with last_command_sent := t }
              outcome := .netErrorHandled
              announcements := [] } := by
  unfold HoumController.discover_lights_and_sync_statuses
  rw [if_neg h]
  rfl

/-- Witness for `C5_network_failure_leaves_registry` on `c5_state` at
time `2 + 1` (exactly one second after the recorded fetch). -/
theorem C5_network_failure_leaves_registry_witness :
    HoumController.discover_lights_and_sync_statuses ((2 : ℚ) + 1) .netError c5_state
      = .ok { state := { c5_state with last_command_sent := (2 : ℚ) + 1 }
              outcome := .netErrorHandled
              announcements := [] } :=
  C5_network_failure_leaves_registry c5_state ((2 : ℚ) + 1) (lt_irrefl ((2 : ℚ) + 1))

/-- When the rate-limit guard holds (less than one second since
`last_command_sent`), the refresh pass returns immediately as a no-op on an
unchanged state. -/
theorem discover_rate_limited (t : ℚ) (resp : FetchOutcome) (st : ControllerState)
    (h : st.last_command_sent + 1 > t) :
    HoumController.discover_lights_and_sync_statuses t resp st
      = .ok { state := st, outcome := .rateLimited, announcements := [] } := by
  unfold HoumController.discover_lights_and_sync_statuses
  rw [if_pos h]

/-- When the rate-limit guard passes, the refresh pass stores the current
time in `last_command_sent` as the first statement of `get_lights` — before
the HTTP call — so the timestamp is `t` on every continuation: handled
network error, uncaught exception, or completed reconcile; and the pass
counts as an attempted fetch. -/
theorem discover_marks_time_at_fetch_start (t : ℚ) (resp : FetchOutcome)
    (st : ControllerState) (h : ¬ (st.last_command_sent + 1 > t)) :
    (stateAfter
        (HoumController.discover_lights_and_sync_statuses t resp st)).last_command_sent = t
    ∧ fetchAttempted (HoumController.discover_lights_and_sync_statuses t resp st) = true := by
  unfold HoumController.discover_lights_and_sync_statuses
  rw [if_neg h]
  cases resp with
  | netError => exact ⟨rfl, rfl⟩
  | ok si =>
    obtain ⟨lights?⟩ := si
    cases lights? with
    | none => exact ⟨rfl, rfl⟩
    | some lights =>
      dsimp only [HoumController.get_lights]
      simp only [List.isEmpty_cons, Bool.false_eq_true, false_and, if_false]
      constructor <;> (split <;> rfl)

/-- Claim C4: for two refresh calls less than one second apart, at most
one snapshot fetch is attempted; when the first call fetched, the second
returns immediately as a no-op on an unchanged state; and whenever the
guard passes the timestamp is recorded at fetch start (before the HTTP
call, also on failing fetches). -/
theorem C4_rate_limited_second_call (st : ControllerState) (t1 t2 : ℚ)
    (r1 r2 : FetchOutcome) (_h12 : t1 ≤ t2) (hlt : t2 < t1 + 1) :
    (¬ (fetchAttempted (HoumController.discover_lights_and_sync_statuses t1 r1 st) = true
        ∧ fetchAttempted (HoumController.discover_lights_and_sync_statuses t2 r2
            (stateAfter (HoumController.discover_lights_and_sync_statuses t1 r1 st))) = true))
    ∧ (fetchAttempted (HoumController.discover_lights_and_sync_statuses t1 r1 st) = true →
        HoumController.discover_lights_and_sync_statuses t2 r2
            (stateAfter (HoumController.discover_lights_and_sync_statuses t1 r1 st))
          = .ok { state :=
                    stateAfter (HoumController.discover_lights_and_sync_statuses t1 r1 st)
                  outcome := .rateLimited
                  announcements := [] })
    ∧ (¬ (st.last_command_sent + 1 > t1) →
        (stateAfter
            (HoumController.discover_lights_and_sync_statuses t1 r1 st)).last_command_sent
          = t1) := by
  by_cases hg : st.last_command_sent + 1 > t1
  · have ho1 := discover_rate_limited t1 r1 st hg
    refine ⟨?_, ?_, ?_⟩
    · rw [ho1]
      exact fun hc => Bool.false_ne_true hc.1
    · rw [ho1]
      exact fun hf => absurd hf Bool.false_ne_true
    · exact fun hng => absurd hg hng
  · obtain ⟨hlast, hatt⟩ := discover_marks_time_at_fetch_start t1 r1 st hg
    have hg2 : (stateAfter
        (HoumController.discover_lights_and_sync_statuses t1 r1 st)).last_command_sent
          + 1 > t2 := by
      rw [hlast]
      exact lt_of_lt_of_le hlt (le_refl _)
    have ho2 := discover_rate_limited t2 r2
      (stateAfter (HoumController.discover_lights_and_sync_statuses t1 r1 st)) hg2
    refine ⟨?_, fun _ => ho2, fun _ => hlast⟩
    rw [ho2]
    exact fun hc => Bool.false_ne_true hc.2

/-- Witness for `C4_rate_limited_second_call`: two refresh calls at the
same instant 0 on `c4_state`. -/
theorem C4_rate_limited_second_call_witness :
    (¬ (fetchAttempted (HoumController.discover_lights_and_sync_statuses 0 .netError c4_state) = true
        ∧ fetchAttempted (HoumController.discover_lights_and_sync_statuses 0 .netError
            (stateAfter
              (HoumController.discover_lights_and_sync_statuses 0 .netError c4_state))) = true))
    ∧ (fetchAttempted (HoumController.discover_lights_and_sync_statuses 0 .netError c4_state) = true →
        HoumController.discover_lights_and_sync_statuses 0 .netError
            (stateAfter (HoumController.discover_lights_and_sync_statuses 0 .netError c4_state))
          = .ok { state :=
                    stateAfter (HoumController.discover_lights_and_sync_statuses 0 .netError c4_state)
                  outcome := .rateLimited
                  announcements := [] })
    ∧ (¬ (c4_state.last_command_sent + 1 > 0) →
        (stateAfter
            (HoumController.discover_lights_and_sync_statuses 0 .netError
              c4_state)).last_command_sent = 0) :=
  C4_rate_limited_second_call c4_state 0 0 .netError .netError (le_refl 0) (lt_add_one 0)

/-- Lookup after a dict assignment: the assigned key reads the new value,
any other key is unaffected. -/
theorem assocGet_assocSet {κ α : Type} [DecidableEq κ] (l : List (κ × α)) (k k' : κ) (v : α) :
    assocGet (assocSet l k v) k' = if k = k' then some v else assocGet l k' := by
  induction l with
  | nil => rfl
  | cons hd tl ih =>
    obtain ⟨k0, w⟩ := hd
    by_cases h0 : k0 = k
    · subst h0
      simp only [assocSet, if_pos rfl, assocGet]
      by_cases hk : k0 = k'
      · simp [hk]
      · simp [hk]
    · simp only [assocSet, if_neg h0, assocGet]
      by_cases hk' : k0 = k'
      · have hkk : k ≠ k' := fun h => h0 (h.symm ▸ hk')
        simp [hk', hkk]
      · simp [hk', ih]

/-- A dict assignment never removes a key. -/
theorem assocSet_preserves_isSome {κ α : Type} [DecidableEq κ] (l : List (κ × α))
    (k k' : κ) (v : α) (h : (assocGet l k').isSome = true) :
    (assocGet (assocSet l k v) k').isSome = true := by
  rw [assocGet_assocSet]
  split
  · rfl
  · exact h

/-- Assigning to a key that is already present leaves the key set of the
dict unchanged. -/
theorem assocSet_isSome_eq {κ α : Type} [DecidableEq κ] (l : List (κ × α)) (k : κ) (v : α)
    (h : (assocGet l k).isSome = true) (k' : κ) :
    (assocGet (assocSet l k v) k').isSome = (assocGet l k').isSome := by
  rw [assocGet_assocSet]
  split
  · rename_i he
    rw [← he, h]
    rfl
  · rfl

/-- The reconcile loop never removes a registry key. -/
theorem reconcile_keeps_keys (cfg : List (PyVal × Dict)) :
    ∀ (lights : List HoumDevice) (reg : Registry) (acc : List HoumDevice)
      (reg' : Registry) (acc' : List HoumDevice),
      reconcile cfg lights reg acc = .ok (reg', acc') →
      ∀ k, (assocGet reg k).isSome = true → (assocGet reg' k).isSome = true := by
  intro lights
  induction lights with
  | nil =>
    intro reg acc reg' acc' h k hk
    simp only [reconcile, Except.ok.injEq, Prod.mk.injEq] at h
    rw [← h.1]
    exact hk
  | cons light rest ih =>
    intro reg acc reg' acc' h k hk
    dsimp only [reconcile] at h
    by_cases hc : assocHas reg light.deviceId = false ∧ isExcluded cfg light.deviceId = false
    · rw [if_pos hc] at h
      exact ih _ _ _ _ h k (assocSet_preserves_isSome reg light.deviceId k light hk)
    · rw [if_neg hc] at h
      cases hreg : assocGet reg light.deviceId with
      | none =>
        rw [hreg] at h
        exact Except.noConfusion h
      | some d0 =>
        rw [hreg] at h
        exact ih _ _ _ _ h k (assocSet_preserves_isSome reg light.deviceId k _ hk)

/-- After a successful reconcile pass, every processed snapshot entry has
its id present in the resulting registry. -/
theorem reconcile_covers (cfg : List (PyVal × Dict)) :
    ∀ (lights : List HoumDevice) (reg : Registry) (acc : List HoumDevice)
      (reg' : Registry) (acc' : List HoumDevice),
      reconcile cfg lights reg acc = .ok (reg', acc') →
      ∀ light ∈ lights, (assocGet reg' light.deviceId).isSome = true := by
  intro lights
  induction lights with
  | nil =>
    intro reg acc reg' acc' _ light hmem
    exact absurd hmem (List.not_mem_nil light)
  | cons light0 rest ih =>
    intro reg acc reg' acc' h light hmem
    dsimp only [reconcile] at h
    by_cases hc : assocHas reg light0.deviceId = false ∧ isExcluded cfg light0.deviceId = false
    · rw [if_pos hc] at h
      rcases List.mem_cons.mp hmem with he | hrest
      · subst he
        refine reconcile_keeps_keys cfg rest _ _ _ _ h light.deviceId ?_
        rw [assocGet_assocSet, if_pos rfl]
        rfl
      · exact ih _ _ _ _ h light hrest
    · rw [if_neg hc] at h
      cases hreg : assocGet reg light0.deviceId with
      | none =>
        rw [hreg] at h
        exact Except.noConfusion h
      | some d0 =>
        rw [hreg] at h
        rcases List.mem_cons.mp hmem with he | hrest
        · subst he
          refine reconcile_keeps_keys cfg rest _ _ _ _ h light.deviceId ?_
          rw [assocGet_assocSet, if_pos rfl]
          rfl
        · exact ih _ _ _ _ h light hrest

/-- When every snapshot entry's id is already present, the reconcile loop
succeeds, adds nothing to the `new_lights` batch, and leaves the key set of
the registry unchanged. -/
theorem reconcile_all_present (cfg : List (PyVal × Dict)) :
    ∀ (lights : List HoumDevice) (reg : Registry) (acc : List HoumDevice),
      (∀ light ∈ lights, (assocGet reg light.deviceId).isSome = true) →
      ∃ reg', reconcile cfg lights reg acc = .ok (reg', acc)
        ∧ ∀ k, (assocGet reg' k).isSome = (assocGet reg k).isSome := by
  intro lights
  induction lights with
  | nil =>
    intro reg acc _
    exact ⟨reg, rfl, fun _ => rfl⟩
  | cons light rest ih =>
    intro reg acc hall
    have hpres : (assocGet reg light.deviceId).isSome = true :=
      hall light (List.mem_cons_self light rest)
    obtain ⟨d0, hd0⟩ := Option.isSome_iff_exists.mp hpres
    have hcond : ¬ (assocHas reg light.deviceId = false
        ∧ isExcluded cfg light.deviceId = false) := by
      intro hc
      rw [assocHas, hpres] at hc
      exact Bool.noConfusion hc.1
    have hrest : ∀ l ∈ rest,
        (assocGet (assocSet reg light.deviceId
          { d0 with «on» := light.«on», bri := light.bri }) l.deviceId).isSome = true := by
      intro l hl
      rw [assocSet_isSome_eq reg light.deviceId _ hpres]
      exact hall l (List.mem_cons_of_mem light hl)
    obtain ⟨reg', hrec, hkeys⟩ := ih (assocSet reg light.deviceId
      { d0 with «on» := light.«on», bri := light.bri }) acc hrest
    refine ⟨reg', ?_, ?_⟩
    · dsimp only [reconcile]
      rw [if_neg hcond, hd0]
      exact hrec
    · intro k
      rw [hkeys k, assocSet_isSome_eq reg light.deviceId _ hpres]

/-- Unfolding `applySnapshot` over the first snapshot entry. -/
theorem applySnapshot_cons (d light : HoumDevice) (k : PyVal) (rest : List HoumDevice) :
    applySnapshot d k (light :: rest)
      = applySnapshot
          (if light.deviceId = k then { d with «on» := light.«on», bri := light.bri } else d)
          k rest :=
  rfl

/-- `applySnapshot` only ever writes `on` and `bri`: identity, class, type,
protocol and name are those of the original record. -/
theorem applySnapshot_id_fields (k : PyVal) (lights : List HoumDevice) :
    ∀ d : HoumDevice,
      (applySnapshot d k lights).deviceId = d.deviceId
      ∧ (applySnapshot d k lights).cls = d.cls
      ∧ (applySnapshot d k lights).type = d.type
      ∧ (applySnapshot d k lights).protocol = d.protocol
      ∧ (applySnapshot d k lights).name = d.name := by
  induction lights with
  | nil => exact fun d => ⟨rfl, rfl, rfl, rfl, rfl⟩
  | cons light rest ih =>
    intro d
    rw [applySnapshot_cons]
    obtain ⟨h1, h2, h3, h4, h5⟩ :=
      ih (if light.deviceId = k then { d with «on» := light.«on», bri := light.bri } else d)
    refine ⟨h1.trans ?_, h2.trans ?_, h3.trans ?_, h4.trans ?_, h5.trans ?_⟩ <;>
      (split <;> rfl)

/-- Claim C9: for a registry key `k` holding record `d` before a successful
reconcile pass, the pass leaves at `k` exactly `d` with its `on`/`bri`
fields overwritten, in order, by the snapshot entries carrying id `k`
(`applySnapshot`); the record's identity, class, type, protocol and name
are unchanged by the pass. -/
theorem C9_present_overwrites_only_state (cfg : List (PyVal × Dict))
    (lights : List HoumDevice) :
    ∀ (reg : Registry) (acc : List HoumDevice) (reg' : Registry)
      (acc' : List HoumDevice) (k : PyVal) (d : HoumDevice),
      reconcile cfg lights reg acc = .ok (reg', acc') →
      assocGet reg k = some d →
      assocGet reg' k = some (applySnapshot d k lights)
      ∧ (applySnapshot d k lights).deviceId = d.deviceId
      ∧ (applySnapshot d k lights).cls = d.cls
      ∧ (applySnapshot d k lights).type = d.type
      ∧ (applySnapshot d k lights).protocol = d.protocol
      ∧ (applySnapshot d k lights).name = d.name := by
  induction lights with
  | nil =>
    intro reg acc reg' acc' k d h hd
    simp only [reconcile, Except.ok.injEq, Prod.mk.injEq] at h
    rw [← h.1]
    exact ⟨hd, rfl, rfl, rfl, rfl, rfl⟩
  | cons light rest ih =>
    intro reg acc reg' acc' k d h hd
    refine ⟨?_, (applySnapshot_id_fields k (light :: rest) d).1,
      (applySnapshot_id_fields k (light :: rest) d).2.1,
      (applySnapshot_id_fields k (light :: rest) d).2.2.1,
      (applySnapshot_id_fields k (light :: rest) d).2.2.2.1,
      (applySnapshot_id_fields k (light :: rest) d).2.2.2.2⟩
    dsimp only [reconcile] at h
    by_cases hc : assocHas reg light.deviceId = false ∧ isExcluded cfg light.deviceId = false
    · rw [if_pos hc] at h
      have hne : light.deviceId ≠ k := by
        intro he
        have hh := hc.1
        rw [assocHas, he, hd] at hh
        exact Bool.noConfusion hh
      have hd1 : assocGet (assocSet reg light.deviceId light) k = some d := by
        rw [assocGet_assocSet, if_neg hne]
        exact hd
      rw [applySnapshot_cons, if_neg hne]
      exact (ih _ _ _ _ k d h hd1).1
    · rw [if_neg hc] at h
      cases hreg : assocGet reg light.deviceId with
      | none =>
        rw [hreg] at h
        exact Except.noConfusion h
      | some d0 =>
        rw [hreg] at h
        by_cases hk : light.deviceId = k
        · have hd0 : d0 = d := by
            rw [hk, hd] at hreg
            exact ((Option.some.injEq _ _).mp hreg).symm
          subst hd0
          have hd1 : assocGet (assocSet reg light.deviceId
              { d0 with «on» := light.«on», bri := light.bri }) k
              = some { d0 with «on» := light.«on», bri := light.bri } := by
            rw [assocGet_assocSet, if_pos hk]
          rw [applySnapshot_cons, if_pos hk]
          exact (ih _ _ _ _ k _ h hd1).1
        · have hd1 : assocGet (assocSet reg light.deviceId
              { d0 with «on» := light.«on», bri := light.bri }) k = some d := by
            rw [assocGet_assocSet, if_neg hk]
            exact hd
          rw [applySnapshot_cons, if_neg hk]
          exact (ih _ _ _ _ k d h hd1).1

/-- Witness for `C9_present_overwrites_only_state`: a registry holding
`c9_old` under id `"a"` reconciled against the single snapshot entry
`c9_new`. -/
theorem C9_present_overwrites_only_state_witness :
    assocGet [(PyVal.pystr "a",
        { c9_old with «on» := c9_new.«on», bri := c9_new.bri })] (.pystr "a")
      = some (applySnapshot c9_old (.pystr "a") [c9_new])
    ∧ (applySnapshot c9_old (.pystr "a") [c9_new]).deviceId = c9_old.deviceId
    ∧ (applySnapshot c9_old (.pystr "a") [c9_new]).cls = c9_old.cls
    ∧ (applySnapshot c9_old (.pystr "a") [c9_new]).type = c9_old.type
    ∧ (applySnapshot c9_old (.pystr "a") [c9_new]).protocol = c9_old.protocol
    ∧ (applySnapshot c9_old (.pystr "a") [c9_new]).name = c9_old.name :=
  C9_present_overwrites_only_state [] [c9_new] [(.pystr "a", c9_old)] []
    [(PyVal.pystr "a", { c9_old with «on» := c9_new.«on», bri := c9_new.bri })] []
    (.pystr "a") c9_old rfl rfl

/-- Claim C8: reconciliation is idempotent.  When a refresh pass at `t1`
fetches `found` and reconciles it into the registry producing `reg1` and
the batch `new1`, then a second pass at `t2` (rate limit elapsed) against
the same snapshot completes with an empty batch, invokes the announcement
callback zero times, and leaves the set of registry keys unchanged. -/
theorem C8_second_pass_is_noop (st : ControllerState) (t1 t2 : ℚ) (resp : FetchOutcome)
    (found : List HoumDevice) (reg1 : Registry) (new1 : List HoumDevice)
    (hg1 : ¬ (st.last_command_sent + 1 > t1))
    (hf : (HoumController.get_lights t1 resp ["binary", "dimmable"] st.protocols).2
      = .ok found)
    (hr : reconcile st.config_device_data found st.device_id_map [] = .ok (reg1, new1))
    (hg2 : ¬ (t1 + 1 > t2)) :
    HoumController.discover_lights_and_sync_statuses t1 resp st
      = .ok { state := { st with last_command_sent := t1, device_id_map := reg1 }
              outcome := .completed new1
              announcements := if new1.isEmpty then [] else [new1] }
    ∧ ∃ reg2,
        HoumController.discover_lights_and_sync_statuses t2 resp
            { st with last_command_sent := t1, device_id_map := reg1 }
          = .ok { state := { st with last_command_sent := t2, device_id_map := reg2 }
                  outcome := .completed []
                  announcements := [] }
        ∧ ∀ k, (assocGet reg2 k).isSome = (assocGet reg1 k).isSome := by
  have hcover : ∀ light ∈ found, (assocGet reg1 light.deviceId).isSome = true :=
    reconcile_covers st.config_device_data found st.device_id_map [] reg1 new1 hr
  obtain ⟨reg2, hrec2, hkeys⟩ :=
    reconcile_all_present st.config_device_data found reg1 [] hcover
  constructor
  · unfold HoumController.discover_lights_and_sync_statuses
    rw [if_neg hg1]
    dsimp only
    rw [hf]
    dsimp only
    rw [hr]
    rfl
  · refine ⟨reg2, ?_, hkeys⟩
    have hf2 : (HoumController.get_lights t2 resp ["binary", "dimmable"] st.protocols).2
        = .ok found := hf
    unfold HoumController.discover_lights_and_sync_statuses
    rw [if_neg hg2]
    dsimp only
    rw [hf2]
    dsimp only
    rw [hrec2]
    rfl

/-- Witness for `C8_second_pass_is_noop`: the empty-registry state
`c8_state`, the one-entry snapshot `c8_light`, first pass at time `0 + 1`,
second pass one second later. -/
theorem C8_second_pass_is_noop_witness :
    HoumController.discover_lights_and_sync_statuses ((0 : ℚ) + 1)
        (.ok ⟨some [c8_light]⟩) c8_state
      = .ok { state := { c8_state with
                         last_command_sent := (0 : ℚ) + 1
                         device_id_map := [(.pystr "a", c8_found)] }
              outcome := .completed [c8_found]
              announcements := if ([c8_found] : List HoumDevice).isEmpty then []
                               else [[c8_found]] }
    ∧ ∃ reg2,
        HoumController.discover_lights_and_sync_statuses ((0 : ℚ) + 1 + 1)
            (.ok ⟨some [c8_light]⟩)
            { c8_state with
              last_command_sent := (0 : ℚ) + 1
              device_id_map := [(.pystr "a", c8_found)] }
          = .ok { state := { c8_state with
                             last_command_sent := (0 : ℚ) + 1 + 1
                             device_id_map := reg2 }
                  outcome := .completed []
                  announcements := [] }
        ∧ ∀ k, (assocGet reg2 k).isSome
            = (assocGet [(PyVal.pystr "a", c8_found)] k).isSome :=
  C8_second_pass_is_noop c8_state ((0 : ℚ) + 1) ((0 : ℚ) + 1 + 1)
    (.ok ⟨some [c8_light]⟩) [c8_found] [(.pystr "a", c8_found)] [c8_found]
    (lt_irrefl ((0 : ℚ) + 1)) rfl rfl (lt_irrefl ((0 : ℚ) + 1 + 1))

end Houm
